import Mathlib

/-
Shallow embedding of the SISYPHOS refinement-benchmark plugin
(src/SISYPHOS.py).  The external refinement engine (olex/olx), the
crystallographic library (cctbx) and the file system are modelled as
abstract inputs: each fallible external call becomes an `Except PyErr`
value supplied to the embedded function, and each file or directory
becomes explicit data.  Python floats are modelled as rationals; Python
dicts as association lists with insert-or-overwrite semantics.
-/

set_option autoImplicit false

namespace Sisyphos

/-- Python exception kinds that matter for control flow in SISYPHOS.py. -/
inductive PyErr where
  | indexError
  | nameError
  | keyError
  | valueError
  | other (msg : String)
  deriving DecidableEq, Repr

deriving instance DecidableEq for Except

/-- Key-value list modelling a Python dict (insertion ordered). -/
abbrev KVs := List (String × String)

/-- Python dict assignment d[k] = v: overwrite in place if the key exists,
else append at the end (Python dicts keep the original position of an
overwritten key). -/
def dictInsert {α : Type} (d : List (String × α)) (k : String) (v : α) :
    List (String × α) :=
  if d.any (fun kv => kv.1 == k) then
    d.map (fun kv => if kv.1 == k then (k, v) else kv)
  else d ++ [(k, v)]

/-- Python dict.update: entries of the second dict overwrite/extend the first. -/
def dictUpdate {α : Type} (d e : List (String × α)) : List (String × α) :=
  e.foldl (fun acc kv => dictInsert acc kv.1 kv.2) d

/-- Python `k in d` membership test on a dict. -/
def dictHasKey {α : Type} (d : List (String × α)) (k : String) : Bool :=
  d.any (fun kv => kv.1 == k)

/-- Python dict lookup d[k]: first (unique) entry with the key, if any. -/
def dictGet {α : Type} (d : List (String × α)) (k : String) : Option α :=
  (d.find? (fun kv => kv.1 == k)).map (fun kv => kv.2)

/-- Numeric value of a string of decimal digit characters. -/
def digitsToNat (cs : List Char) : Nat :=
  cs.foldl (fun n c => 10 * n + (c.toNat - 48)) 0

/-- Split a character list at every occurrence of the separator
(Python str.split semantics on a single-character separator). -/
def splitOnChar (c : Char) : List Char → List (List Char)
  | [] => [[]]
  | x :: xs =>
      match splitOnChar c xs with
      | [] => [[]]
      | h :: t => if x = c then [] :: h :: t else (x :: h) :: t

/-- The prefix of a character list before the first occurrence of c:
s.split(c)[0]. -/
def takeBeforeChar (c : Char) : List Char → List Char
  | [] => []
  | x :: xs => if x = c then [] else x :: takeBeforeChar c xs

/-- Python float(), restricted to the nonnegative plain decimal literals
this plugin ever feeds it (the numeric prefix of an extinction report,
such as 0.0005).  A literal ip.fp denotes ip + fp/10^len(fp), written as
one normalised fraction; none models the ValueError float() raises on
anything else. -/
def pyFloat (cs : List Char) : Option ℚ :=
  match splitOnChar '.' cs with
  | [ip] =>
      if ip ≠ [] ∧ ip.all Char.isDigit then
        some (mkRat (digitsToNat ip) 1)
      else none
  | [ip, fp] =>
      if (ip ≠ [] ∨ fp ≠ []) ∧ ip.all Char.isDigit ∧ fp.all Char.isDigit then
        some (mkRat (digitsToNat ip * 10 ^ fp.length + digitsToNat fp)
          (10 ^ fp.length))
      else none
  | _ => none

/-- Actions taken by the extinction branch of BenchJob.refine
(lines 152-163): whether "delins EXTI" was issued, and whether the
refinement program was switched to Levenberg-Marquardt. -/
structure ExtiAction where
  deletedEXTI : Bool
  setLM : Bool
  deriving DecidableEq, Repr

/-- The extinction branch of BenchJob.refine: read exti; if not the
sentinel "n/a", parse float(exti.split("(")[0]); below 0.001 delete the
EXTI instruction, otherwise switch the engine to Levenberg-Marquardt.
A ValueError from float() propagates (caught by refine's outer handler). -/
def extiBranch (exti : String) : Except PyErr ExtiAction :=
  if exti ≠ "n/a" then
    match pyFloat (takeBeforeChar '(' exti.toList) with
    | none => .error .valueError
    | some v =>
        if v < mkRat 1 1000 then .ok ⟨true, false⟩
        else .ok ⟨false, true⟩
  else .ok ⟨false, false⟩

/-- The BenchJob pipeline object (attributes set in __init__). -/
structure BenchJob where
  base_work_path : String
  id : Nat
  use_nos2 : Bool
  nos2_params : Option KVs
  work_path : String
  time_needed : ℚ
  cycles_needed : Nat
  deriving DecidableEq, Repr

/-- BenchJob.__init__ minus the setup_workspace call (modelled separately):
if nos2_params is None the use_nos2 flag is forced to False; the work path
is base/job_id; time and cycle counters start at zero. -/
def BenchJob.init (base_work_path : String) (id : Nat) (use_nos2 : Bool)
    (nos2_params : Option KVs) : BenchJob :=
  let use_nos2' := match nos2_params with
    | none => false
    | some _ => use_nos2
  { base_work_path := base_work_path
    id := id
    use_nos2 := use_nos2'
    nos2_params := nos2_params
    work_path := base_work_path ++ "/job_" ++ toString id
    time_needed := 0
    cycles_needed := 0 }

/-- BenchJob.__str__: header line, then either "IAM Job" when
nos2_params is None, or the key:value| list of the parameters. -/
def BenchJob.str (j : BenchJob) : String :=
  let res := "Job with following options:\n"
  match j.nos2_params with
  | none => res ++ "IAM Job\n"
  | some ps => ps.foldl (fun acc kv => acc ++ kv.1 ++ ":" ++ kv.2 ++ "|") res

/-- Abstract outcomes of the external calls BenchJob.refine makes before
and during the pipeline: whether loading the .ins (and the fixed
preparation steps and the first IAM refinement) succeeded, the engine's
extinction report, and the advanced pass's timing/cycle readings. -/
structure RefineInputs where
  loadOk : Bool
  update_weight : Bool
  exti : String
  elapsed : ℚ
  run_number : Nat
  deriving DecidableEq, Repr

/-- Observable outcome of one BenchJob.refine pass. -/
structure RefineOutcome where
  deletedEXTI : Bool
  setLM : Bool
  ranNos2 : Bool
  failed : Bool
  time_needed : ℚ
  cycles_needed : Nat
  deriving DecidableEq, Repr

/-- BenchJob.refine: the whole pass is wrapped in one try/except.  An
early failure (modelled by loadOk = false) reaches no later stage; the
extinction branch runs after the first IAM refinement; the NoSpherA2 pass
runs only when use_nos2 is set, recording elapsed time and cycle count.
Any exception is caught: refine always returns. -/
def BenchJob.refine (j : BenchJob) (inp : RefineInputs) : RefineOutcome :=
  if ¬ inp.loadOk then ⟨false, false, false, true, 0, 0⟩
  else
    match extiBranch inp.exti with
    | .error _ => ⟨false, false, false, true, 0, 0⟩
    | .ok act =>
        if j.use_nos2 then
          ⟨act.deletedEXTI, act.setLM, true, false, inp.elapsed, inp.run_number⟩
        else
          ⟨act.deletedEXTI, act.setLM, false, false, 0, 0⟩

/-- The sibling data directory (one level above the jobs' base path),
holding the glob results for *.hkl and *.ins in glob order. -/
structure DataDir where
  hklFiles : List String
  insFiles : List String
  deriving DecidableEq, Repr

/-- The [0] indexing of a glob result list: IndexError on an empty list,
otherwise the first match. -/
def globFirst (ms : List String) : Except PyErr String :=
  match ms with
  | [] => .error .indexError
  | f :: _ => .ok f

/-- BenchJob.setup_workspace: make the job directory if absent, else
delete it recursively and remake it (so it is empty either way); then
copy the first *.hkl and the first *.ins glob match from the data
directory into it.  Returns the resulting directory contents, or the
IndexError from an empty glob.  The prior contents of the directory are
discarded unconditionally. -/
def setup_workspace (data : DataDir) (prior : Option (List String)) :
    Except PyErr (List String) :=
  let dir : List String := match prior with
    | none => []
    | some _ => []
  match globFirst data.hklFiles with
  | .error e => .error e
  | .ok hkl =>
      match globFirst data.insFiles with
      | .error e => .error e
      | .ok ins => .ok (dir ++ [hkl] ++ [ins])

/-- BenchJob construction as init_sisy_jobs performs it: __init__ stores
the attributes and then calls setup_workspace, whose IndexError (if any)
propagates and aborts construction. -/
def BenchJob.construct (data : DataDir) (prior : Option (List String))
    (base_work_path : String) (id : Nat) (use_nos2 : Bool)
    (nos2_params : Option KVs) : Except PyErr BenchJob :=
  match setup_workspace data prior with
  | .error e => .error e
  | .ok _ => .ok (BenchJob.init base_work_path id use_nos2 nos2_params)

/-- The benchmark source: an ordered list of job configurations plus the
is_finished query (done-marker check) per index. -/
structure BenchSource where
  jobs : List KVs
  finished : Nat → Bool

/-- Full-batch arm of SISYPHOS.init_sisy_jobs: walk the configurations in
order with their indices; skip an index reported finished; otherwise merge
defaults with the configuration and construct a plain job when the merged
dict has an "IAM" key, else an advanced job. -/
def init_sisy_jobs_go (work_path : String) (nos2_options : KVs)
    (use_nosphera2 : Bool) (src : BenchSource) :
    Nat → List KVs → List BenchJob
  | _, [] => []
  | i, job :: rest =>
      if src.finished i then
        init_sisy_jobs_go work_path nos2_options use_nosphera2 src (i + 1) rest
      else
        let tmp := dictUpdate nos2_options job
        (if dictHasKey tmp "IAM" then
          BenchJob.init work_path i false none
        else
          BenchJob.init work_path i use_nosphera2 (some tmp))
          :: init_sisy_jobs_go work_path nos2_options use_nosphera2 src (i + 1) rest

/-- SISYPHOS.init_sisy_jobs: when sisy_job_idx is not -1 run single-job
mode (return [] if that index is finished, else construct just that job);
otherwise enumerate all configurations, skipping finished indices.
Workspace setup is modelled separately (BenchJob.construct); here job
construction is the pure attribute part. -/
def init_sisy_jobs (work_path : String) (sisy_job_idx : Int)
    (nos2_options : KVs) (use_nosphera2 : Bool) (src : BenchSource) :
    List BenchJob :=
  if sisy_job_idx ≠ -1 then
    if src.finished sisy_job_idx.toNat then []
    else
      let tmp := dictUpdate nos2_options (src.jobs.getD sisy_job_idx.toNat [])
      if dictHasKey tmp "IAM" then
        [BenchJob.init work_path sisy_job_idx.toNat false none]
      else
        [BenchJob.init work_path sisy_job_idx.toNat use_nosphera2 (some tmp)]
  else
    init_sisy_jobs_go work_path nos2_options use_nosphera2 src 0 src.jobs

/-- Condition of the symmetry correction in extract_info (lines 331-338):
both cell lengths equal, both uncertainties equal, and both corresponding
angles exactly 90 with zero uncertainty.  Indices into the 6-entry cell
parameter/error vectors (a b c alpha beta gamma). -/
abbrev symmCond (p e : Nat → ℚ) (i j : Nat) : Prop :=
  p i = p j ∧ e i = e j ∧ p (i + 3) = 90 ∧ e (i + 3) = 0
    ∧ p (j + 3) = 90 ∧ e (j + 3) = 0

/-- One iteration of the symmetry-correction loop: when the condition
holds, set entries (i,j) and (j,i) of the matrix to cell_errors[i]^2
(math.pow(cell_errors[i], 2)); otherwise leave the matrix unchanged. -/
def updatePair (p e : Nat → ℚ) (m : Nat → Nat → ℚ) (i j : Nat) :
    Nat → Nat → ℚ :=
  if symmCond p e i j then
    fun a b => if (a = i ∧ b = j) ∨ (a = j ∧ b = i) then e i ^ 2 else m a b
  else m

/-- flex.pow2(matrix.diag(cell_errors)...): the diagonal matrix of the
squared cell-parameter uncertainties. -/
def diagPow2 (e : Nat → ℚ) : Nat → Nat → ℚ :=
  fun a b => if a = b then e a ^ 2 else 0

/-- The cell variance-covariance matrix built in extract_info
(lines 328-340): squared-error diagonal, then the symmetry-correction
loop over the pairs (i, j) with i in range(3) and j in range(i+1, 3),
i.e. (0,1), (0,2), (1,2) in that order. -/
def cell_vcv (p e : Nat → ℚ) : Nat → Nat → ℚ :=
  updatePair p e (updatePair p e (updatePair p e (diagPow2 e) 0 1) 0 2) 1 2

/-- Collect the results of a sequence of fallible steps up to (and
excluding) the first failure; the steps after the failure never run.
Models a Python loop of external calls inside a try block. -/
def takeUntilErr {α : Type} : List (Except PyErr α) → List α
  | [] => []
  | .ok a :: rest => a :: takeUntilErr rest
  | .error _ :: _ => []

/-- Fold a list of key-value entries into a Python dict. -/
def dictOf (l : List (String × String)) : KVs :=
  l.foldl (fun d kv => dictInsert d kv.1 kv.2) []

/-- BenchJob.parse_cif (lines 187-248): the basic field scan and the
atom-block scan each sit in their own try/except filling the shared out
dict; each abstract step yields one key-value entry or raises.  A failure
in either section keeps the entries made so far and moves on; parse_cif
itself never raises. -/
def parse_cif (basic ext : List (Except PyErr (String × String))) : KVs :=
  let d := dictOf (takeUntilErr basic)
  (takeUntilErr ext).foldl (fun d kv => dictInsert d kv.1 kv.2) d

/-- One step of the distance loop in extract_info (lines 360-363), in
iteration order.  good carries the bond label, the stored distance and
the stored standard uncertainty (math.sqrt of the variance, already
taken, since the variance is only ever used under sqrt); failAfterDist
is an iteration whose distance was stored but whose variance/sqrt step
raised (negative variance or a library failure); failBefore is an
iteration that raised before storing anything. -/
inductive PairStep where
  | good (bond : String) (dist : ℚ) (err : ℚ)
  | failAfterDist (bond : String) (dist : ℚ)
  | failBefore
  deriving DecidableEq, Repr

/-- The distance loop: successive dict assignments, stopping at the first
raising iteration (the exception is caught outside the loop) and keeping
everything assigned before it.  The Bool records whether a step raised. -/
def propLoop (ds es : List (String × ℚ)) :
    List PairStep → List (String × ℚ) × List (String × ℚ) × Bool
  | [] => (ds, es, false)
  | .good b d e :: rest => propLoop (dictInsert ds b d) (dictInsert es b e) rest
  | .failAfterDist b d :: _ => (dictInsert ds b d, es, true)
  | .failBefore :: _ => (ds, es, true)

/-- Abstract outcomes of the external calls in the error-propagation
block of extract_info (lines 297-363), in source order: the
FullMatrixRefine construction with run(build_only) and build_up (build);
the three residual computations; the retrieval of connectivity, cell
parameters/errors, labels, fractional sites, covariance matrix and
parameter map together with calculate_distances (post — the pure cell_vcv
construction also happens in this stretch, from cellP/cellE); then the
distance-loop iterations. -/
structure PropEnv where
  cellP : Nat → ℚ
  cellE : Nat → ℚ
  build : Except PyErr Unit
  r1_all : Except PyErr ℚ
  r1_gt : Except PyErr ℚ
  wr2 : Except PyErr ℚ
  post : Except PyErr Unit
  pairs : List PairStep

/-- The five outputs of the propagation block, as they stand when the
block's single try/except finishes. -/
structure PropResult where
  R1_all : ℚ
  R1_gt : ℚ
  wR2 : ℚ
  dist_stats : List (String × ℚ)
  dist_errs : List (String × ℚ)
  deriving DecidableEq, Repr

/-- The propagation block: dist_stats, dist_errs, R1_all, R1_gt and wR2
are initialised to empty/zero (lines 291-295); the try block assigns them
one after the other in source order; any exception jumps to the except
clause (log and pass) leaving every variable with whatever value it had
at the failure point. -/
def extract_prop (env : PropEnv) : PropResult :=
  match env.build with
  | .error _ => ⟨0, 0, 0, [], []⟩
  | .ok _ =>
      match env.r1_all with
      | .error _ => ⟨0, 0, 0, [], []⟩
      | .ok r1a =>
          match env.r1_gt with
          | .error _ => ⟨r1a, 0, 0, [], []⟩
          | .ok r1g =>
              match env.wr2 with
              | .error _ => ⟨r1a, r1g, 0, [], []⟩
              | .ok w =>
                  match env.post with
                  | .error _ => ⟨r1a, r1g, w, [], []⟩
                  | .ok _ =>
                      let r := propLoop [] [] env.pairs
                      ⟨r1a, r1g, w, r.1, r.2.1⟩

/-- Whether an abstract external call raised. -/
def exceptFailed {α : Type} : Except PyErr α → Bool
  | .error _ => true
  | .ok _ => false

/-- Whether some iteration of the distance loop raised. -/
def pairsFailed : List PairStep → Bool
  | [] => false
  | .good _ _ _ :: rest => pairsFailed rest
  | .failAfterDist _ _ :: _ => true
  | .failBefore :: _ => true

/-- Whether any step of the propagation block raised. -/
def propFailed (env : PropEnv) : Bool :=
  exceptFailed env.build || exceptFailed env.r1_all || exceptFailed env.r1_gt
    || exceptFailed env.wr2 || exceptFailed env.post || pairsFailed env.pairs

/-- Abstract outcomes of the external calls in extract_info, in source
order: the nine cell queries (CellEx a..gamma, VolumeEx, GetZ, GetZprime)
inside one try; the unguarded olex_core.GetHklStat call; the *.cif glob
result; the two parse_cif scans; and the propagation block inputs. -/
structure ExtractEnv where
  cellSteps : List (Except PyErr (String × String))
  hklStat : Except PyErr KVs
  cifFiles : List String
  cifBasic : List (Except PyErr (String × String))
  cifExt : List (Except PyErr (String × String))
  prop : PropEnv

/-- The data extract_info has gathered when it reaches the end of the
results write without raising. -/
structure ExtractResult where
  cell_stats : KVs
  hkl_stats : KVs
  cif_stats : KVs
  propR : PropResult
  deriving DecidableEq

/-- BenchJob.extract_info (lines 267-421).  Cell stats: guarded, partial
dict kept on failure.  GetHklStat: NOT guarded, its exception propagates.
Cif stats: glob[0] plus parse_cif guarded, but on failure the local
variable cif_stats is never assigned, so the later read of it in the
results write raises NameError.  Propagation block: extract_prop.
Results write: iterates cif_stats (NameError if undefined) and looks up
dist_errs[key] for every key of dist_stats (KeyError if absent). -/
def extract_info (env : ExtractEnv) : Except PyErr ExtractResult :=
  let cell_stats := dictOf (takeUntilErr env.cellSteps)
  match env.hklStat with
  | .error e => .error e
  | .ok hkl_stats =>
      let cifOpt : Option KVs :=
        match env.cifFiles with
        | [] => none
        | _ :: _ => some (parse_cif env.cifBasic env.cifExt)
      let pr := extract_prop env.prop
      match cifOpt with
      | none => .error .nameError
      | some cif_stats =>
          if pr.dist_stats.all (fun kv => (dictGet pr.dist_errs kv.1).isSome) then
            .ok ⟨cell_stats, hkl_stats, cif_stats, pr⟩
          else .error .keyError

/-- Observable outcome of BenchJob.run: the refinement pass outcome and
whether the zero-byte done marker file was created. -/
structure RunState where
  refineRes : RefineOutcome
  doneMarker : Bool
  deriving Repr

/-- BenchJob.run (lines 250-265): refine (which catches its own
exceptions), then try extract_info; on an exception from it set done to
False; create the done marker file exactly when done is still True. -/
def BenchJob.run (j : BenchJob) (rinp : RefineInputs) (env : ExtractEnv) :
    RunState :=
  let r := j.refine rinp
  match extract_info env with
  | .ok _ => ⟨r, true⟩
  | .error _ => ⟨r, false⟩

/-- The fixed key list of the refine_dict section (lines 389-396). -/
def refineKeys : List String :=
  ["max_peak", "max_hole", "res_rms", "goof", "max_shift_over_esd", "hooft_str"]

/-- One results-file section body: key:value, for every dict entry. -/
def kvJoin (d : KVs) : String :=
  d.foldl (fun acc kv => acc ++ kv.1 ++ ":" ++ kv.2 ++ ",") ""

/-- The bonderrors section body: iterate the keys of dist_stats, writing
dist_errs[key] (lines 416-418).  A key absent from dist_errs raises
KeyError in Python; that path is modelled in extract_info, so the text
builder assumes presence. -/
def kvJoinWith (keysrc vals : KVs) : String :=
  keysrc.foldl
    (fun acc kv => acc ++ kv.1 ++ ":" ++ ((dictGet vals kv.1).getD "") ++ ",") ""

/-- The values the results write reads, with every numeric already
rendered through Python str() at the external boundary. -/
structure ResultsData where
  use_nos2 : Bool
  nos2_params : KVs
  hkl_stats : KVs
  cell_stats : KVs
  cif_stats : KVs
  refine_val : String → String
  R1_all : String
  R1_gt : String
  wR2 : String
  cycles : String
  time : String
  dist_stats : KVs
  dist_errs : KVs
  weight : String
  npd : String

/-- The text block one extract_info call appends to results.txt
(lines 372-421), concatenated in source order. -/
def results_text (r : ResultsData) : String :=
  "NoSpherA2_Dict:\n"
    ++ (if r.use_nos2 then kvJoin r.nos2_params else "")
    ++ "\nStats-GetHklStat:\n" ++ kvJoin r.hkl_stats
    ++ "\nCell-Stats:\n" ++ kvJoin r.cell_stats
    ++ "\nCIF-stats:\n" ++ kvJoin r.cif_stats
    ++ "\nrefine_dict:\n"
    ++ kvJoin (refineKeys.map (fun k => (k, r.refine_val k)))
    ++ ("R1_all:" ++ r.R1_all ++ ",R1_gt:" ++ r.R1_gt ++ ",wR2:" ++ r.wR2
        ++ ",cycles:" ++ r.cycles ++ ",time:" ++ r.time ++ ",")
    ++ "\nbondlengths:\n" ++ kvJoin r.dist_stats
    ++ "\nbonderrors:\n" ++ kvJoinWith r.dist_stats r.dist_errs
    ++ "\nWeight:" ++ r.weight
    ++ "\nNr. NPD:" ++ r.npd
    ++ "\n+++++++++++++++++++\n"

/-- String a occurs in t strictly before string b. -/
def occursBefore (t a b : String) : Prop :=
  ∃ u v w, t = u ++ a ++ v ++ b ++ w

/-- Example cell parameters: a = b = 5.0, c = 7.0, all angles 90. -/
def cellP_example : Nat → ℚ :=
  fun n => ([5, 5, 7, 90, 90, 90] : List ℚ).getD n 0

/-- Example cell uncertainties: 0.01, 0.01, 0.02 for the lengths, exact
angles. -/
def cellE_example : Nat → ℚ :=
  fun n => ([mkRat 1 100, mkRat 1 100, mkRat 1 50, 0, 0, 0] : List ℚ).getD n 0

/-- A propagation run whose build, residual and retrieval steps succeed
with nonzero residuals, whose first distance iteration succeeds
(bond O1-H1, distance 0.98, uncertainty 0.01), and whose second
iteration raises. -/
def propEnvPartial : PropEnv :=
  { cellP := cellP_example
    cellE := cellE_example
    build := .ok ()
    r1_all := .ok (mkRat 1 20)
    r1_gt := .ok (mkRat 1 25)
    wr2 := .ok (mkRat 1 10)
    post := .ok ()
    pairs := [.good "O1-H1" (mkRat 49 50) (mkRat 1 100), .failBefore] }

/-- A propagation run in which every step succeeds. -/
def propEnvBenign : PropEnv :=
  { cellP := cellP_example
    cellE := cellE_example
    build := .ok ()
    r1_all := .ok (mkRat 1 20)
    r1_gt := .ok (mkRat 1 25)
    wr2 := .ok (mkRat 1 10)
    post := .ok ()
    pairs := [.good "O1-H1" (mkRat 49 50) (mkRat 1 100)] }

/-- An extraction run in which everything succeeds except that the
workspace holds no .cif file: the glob result is empty. -/
def extractEnvNoCif : ExtractEnv :=
  { cellSteps := [.ok ("a", "5.0")]
    hklStat := .ok [("TotalReflections", "100")]
    cifFiles := []
    cifBasic := []
    cifExt := []
    prop := propEnvBenign }

/-- An extraction run in which everything succeeds except the
olex_core.GetHklStat call. -/
def extractEnvHklFail : ExtractEnv :=
  { cellSteps := [.ok ("a", "5.0")]
    hklStat := .error (.other "GetHklStat")
    cifFiles := ["sample.cif"]
    cifBasic := [.ok ("R1", "0.02")]
    cifExt := []
    prop := propEnvBenign }

/-- An extraction run in which every category succeeds. -/
def extractEnvBenign : ExtractEnv :=
  { cellSteps := [.ok ("a", "5.0")]
    hklStat := .ok [("TotalReflections", "100")]
    cifFiles := ["sample.cif"]
    cifBasic := [.ok ("R1", "0.02")]
    cifExt := []
    prop := propEnvBenign }

/-- Benign refinement inputs: the load succeeds and the engine reports no
extinction. -/
def rinpBenign : RefineInputs :=
  { loadOk := true
    update_weight := false
    exti := "n/a"
    elapsed := 0
    run_number := 0 }

/-- Refinement inputs whose load step raises, so the whole pass fails
early (caught and logged). -/
def rinpLoadFail : RefineInputs :=
  { loadOk := false
    update_weight := false
    exti := "n/a"
    elapsed := 0
    run_number := 0 }

/-- Example inputs of the results write: one bond O1-H1 with distance
0.98 and uncertainty 0.01 (already rendered by str()). -/
def resultsDataExample : ResultsData :=
  { use_nos2 := false
    nos2_params := []
    hkl_stats := [("TotalReflections", "100")]
    cell_stats := [("a", "5.0")]
    cif_stats := [("R1", "0.02")]
    refine_val := fun _ => "0"
    R1_all := "0.02"
    R1_gt := "0.02"
    wR2 := "0.05"
    cycles := "0"
    time := "0.0"
    dist_stats := [("O1-H1", "0.98")]
    dist_errs := [("O1-H1", "0.01")]
    weight := "True"
    npd := "0" }

/-- Example benchmark source: two configurations, index 0 already
finished. -/
def srcExample : BenchSource :=
  { jobs := [[("basis_name", "def2")], [("basis_name", "cc")]]
    finished := fun n => n == 0 }

/-- C1: BenchJob.run creates the zero-byte done marker exactly when
extract_info returns without raising, and the marker decision does not
depend on the refinement inputs — in particular not on a refinement
failure caught and logged earlier in the same run. -/
theorem run_done_marker_iff_extract_ok (j : BenchJob)
    (rinp rinp' : RefineInputs) (env : ExtractEnv) :
    ((j.run rinp env).doneMarker = true ↔ ∃ r, extract_info env = .ok r)
      ∧ (j.run rinp env).doneMarker = (j.run rinp' env).doneMarker := by
  constructor
  · cases h : extract_info env <;> simp [BenchJob.run, h]
  · cases h : extract_info env <;> simp [BenchJob.run, h]

/-- C4: extinction value 0.0005(3) makes the pipeline delete EXTI and
keep Gauss-Newton; 0.002(1) switches to Levenberg-Marquardt and keeps
EXTI; the sentinel n/a does neither — both at the extinction branch and
through a full refine pass. -/
theorem exti_branch_determinism :
    (extiBranch "0.0005(3)" = .ok ⟨true, false⟩
      ∧ extiBranch "0.002(1)" = .ok ⟨false, true⟩
      ∧ extiBranch "n/a" = .ok ⟨false, false⟩)
    ∧ (((BenchJob.init "wp" 0 false none).refine
          ⟨true, false, "0.0005(3)", 0, 0⟩).deletedEXTI = true
        ∧ ((BenchJob.init "wp" 0 false none).refine
          ⟨true, false, "0.0005(3)", 0, 0⟩).setLM = false)
    ∧ (((BenchJob.init "wp" 0 false none).refine
          ⟨true, false, "0.002(1)", 0, 0⟩).deletedEXTI = false
        ∧ ((BenchJob.init "wp" 0 false none).refine
          ⟨true, false, "0.002(1)", 0, 0⟩).setLM = true)
    ∧ (((BenchJob.init "wp" 0 false none).refine
          ⟨true, false, "n/a", 0, 0⟩).deletedEXTI = false
        ∧ ((BenchJob.init "wp" 0 false none).refine
          ⟨true, false, "n/a", 0, 0⟩).setLM = false) := by
  decide

/-- C10: constructing a BenchJob with nos2_params None forces use_nos2 to
False whatever flag was passed, the NoSpherA2 pass of refine never runs,
and __str__ reports an IAM job. -/
theorem nos2_none_forces_iam (base : String) (id : Nat) (u : Bool)
    (inp : RefineInputs) :
    (BenchJob.init base id u none).use_nos2 = false
      ∧ ((BenchJob.init base id u none).refine inp).ranNos2 = false
      ∧ (BenchJob.init base id u none).str
          = "Job with following options:\nIAM Job\n" := by
  refine ⟨rfl, ?_, rfl⟩
  unfold BenchJob.refine
  split
  · rfl
  · cases h : extiBranch inp.exti <;> simp [BenchJob.init]

/-- C2 counterexample: a distance-loop failure after the first pair
leaves R1_all nonzero and the bond tables populated with the first pair —
the derived outputs are not zeroed as a unit. -/
theorem prop_all_or_nothing_counterexample :
    propFailed propEnvPartial = true
      ∧ (extract_prop propEnvPartial).R1_all ≠ 0
      ∧ (extract_prop propEnvPartial).dist_stats = [("O1-H1", mkRat 49 50)]
      ∧ (extract_prop propEnvPartial).dist_errs = [("O1-H1", mkRat 1 100)] := by
  decide

/-- C2 amended: an exception zeroes the derived outputs only from the
failure point onward — a failure in the normal-equations build (before
any assignment) leaves all of R1_all, R1_gt, wR2 and both bond tables
zero/empty, a failure in a later residual step keeps the residuals
already assigned, and a distance-loop failure keeps the pairs already
stored. -/
theorem prop_zero_from_failure_point (env : PropEnv) :
    (exceptFailed env.build = true → extract_prop env = ⟨0, 0, 0, [], []⟩)
      ∧ (env.build = .ok () → exceptFailed env.r1_all = true →
          extract_prop env = ⟨0, 0, 0, [], []⟩)
      ∧ (∀ a, env.build = .ok () → env.r1_all = .ok a →
          exceptFailed env.r1_gt = true →
          extract_prop env = ⟨a, 0, 0, [], []⟩)
      ∧ (∀ a g, env.build = .ok () → env.r1_all = .ok a →
          env.r1_gt = .ok g → exceptFailed env.wr2 = true →
          extract_prop env = ⟨a, g, 0, [], []⟩)
      ∧ (∀ a g w, env.build = .ok () → env.r1_all = .ok a →
          env.r1_gt = .ok g → env.wr2 = .ok w →
          exceptFailed env.post = true →
          extract_prop env = ⟨a, g, w, [], []⟩) := by
  refine ⟨?_, ?_, ?_, ?_, ?_⟩
  · intro hb
    cases h : env.build with
    | error e => simp [extract_prop, h]
    | ok v => rw [h] at hb; simp [exceptFailed] at hb
  · intro hb hr
    cases h : env.r1_all with
    | error e => simp [extract_prop, hb, h]
    | ok v => rw [h] at hr; simp [exceptFailed] at hr
  · intro a hb hra hr
    cases h : env.r1_gt with
    | error e => simp [extract_prop, hb, hra, h]
    | ok v => rw [h] at hr; simp [exceptFailed] at hr
  · intro a g hb hra hrg hr
    cases h : env.wr2 with
    | error e => simp [extract_prop, hb, hra, hrg, h]
    | ok v => rw [h] at hr; simp [exceptFailed] at hr
  · intro a g w hb hra hrg hw hr
    cases h : env.post with
    | error e => simp [extract_prop, hb, hra, hrg, hw, h]
    | ok v => rw [h] at hr; simp [exceptFailed] at hr

/-- C2 witness for the amended statement: a concrete run failing at the
build step has every output zero/empty. -/
theorem prop_zero_from_failure_point_witness :
    extract_prop
        { cellP := cellP_example, cellE := cellE_example
          build := .error (.other "singular"), r1_all := .ok (mkRat 1 20)
          r1_gt := .ok (mkRat 1 25), wr2 := .ok (mkRat 1 10)
          post := .ok (), pairs := [] }
      = ⟨0, 0, 0, [], []⟩ :=
  (prop_zero_from_failure_point _).1 rfl

/-- C3: the code contradicts the per-category guarding the spec states.
With no .cif file in the workspace, the guarded cif lookup fails and the
local variable cif_stats is never assigned, so the results write raises
NameError and extract_info raises (no done marker) even though every
other category succeeded; a GetHklStat failure is not guarded at all and
aborts extract_info directly; a fully benign run succeeds. -/
theorem extract_info_unguarded_failures :
    extract_info extractEnvNoCif = .error .nameError
      ∧ extract_info extractEnvHklFail = .error (.other "GetHklStat")
      ∧ ((BenchJob.init "wp" 0 false none).run rinpBenign
          extractEnvNoCif).doneMarker = false
      ∧ exceptFailed (extract_info extractEnvBenign) = false := by
  decide

/-- An updatePair write never changes entries other than (i,j) and (j,i). -/
theorem updatePair_other (p e : Nat → ℚ) (m : Nat → Nat → ℚ) (i j a b : Nat)
    (h : ¬ ((a = i ∧ b = j) ∨ (a = j ∧ b = i))) :
    updatePair p e m i j a b = m a b := by
  unfold updatePair
  split
  · exact if_neg h
  · rfl

/-- When the symmetry condition holds, updatePair sets both mirrored
entries to the shared squared uncertainty. -/
theorem updatePair_hit (p e : Nat → ℚ) (m : Nat → Nat → ℚ) (i j : Nat)
    (h : symmCond p e i j) :
    updatePair p e m i j i j = e i ^ 2 ∧ updatePair p e m i j j i = e i ^ 2 := by
  unfold updatePair
  rw [if_pos h]
  exact ⟨if_pos (Or.inl ⟨rfl, rfl⟩), if_pos (Or.inr ⟨rfl, rfl⟩)⟩

/-- When the symmetry condition fails, updatePair leaves the matrix
unchanged. -/
theorem updatePair_miss (p e : Nat → ℚ) (m : Nat → Nat → ℚ) (i j : Nat)
    (h : ¬ symmCond p e i j) :
    updatePair p e m i j = m :=
  if_neg h

/-- C5: for every pair of cell-length axes i < j < 3, the off-diagonal
entries (i,j) and (j,i) of the cell covariance matrix equal the shared
squared uncertainty exactly when lengths and uncertainties agree and both
corresponding angles are 90 with zero uncertainty; otherwise they stay
zero. -/
theorem cell_vcv_symmetry_rule (p e : Nat → ℚ) (i j : Nat)
    (hij : i < j) (hj : j < 3) :
    (symmCond p e i j →
        cell_vcv p e i j = e i ^ 2 ∧ cell_vcv p e j i = e i ^ 2)
      ∧ (¬ symmCond p e i j →
        cell_vcv p e i j = 0 ∧ cell_vcv p e j i = 0) := by
  have h2 : i = 0 ∧ j = 1 ∨ i = 0 ∧ j = 2 ∨ i = 1 ∧ j = 2 := by omega
  unfold cell_vcv
  rcases h2 with ⟨rfl, rfl⟩ | ⟨rfl, rfl⟩ | ⟨rfl, rfl⟩
  · constructor
    · intro h
      rw [updatePair_other p e _ 1 2 0 1 (by omega),
          updatePair_other p e _ 0 2 0 1 (by omega),
          updatePair_other p e _ 1 2 1 0 (by omega),
          updatePair_other p e _ 0 2 1 0 (by omega)]
      exact updatePair_hit p e _ 0 1 h
    · intro h
      rw [updatePair_other p e _ 1 2 0 1 (by omega),
          updatePair_other p e _ 0 2 0 1 (by omega),
          updatePair_other p e _ 1 2 1 0 (by omega),
          updatePair_other p e _ 0 2 1 0 (by omega),
          updatePair_miss p e _ 0 1 h]
      exact ⟨by simp [diagPow2], by simp [diagPow2]⟩
  · constructor
    · intro h
      rw [updatePair_other p e _ 1 2 0 2 (by omega),
          updatePair_other p e _ 1 2 2 0 (by omega)]
      exact updatePair_hit p e _ 0 2 h
    · intro h
      rw [updatePair_other p e _ 1 2 0 2 (by omega),
          updatePair_other p e _ 1 2 2 0 (by omega),
          updatePair_miss p e _ 0 2 h,
          updatePair_other p e _ 0 1 0 2 (by omega),
          updatePair_other p e _ 0 1 2 0 (by omega)]
      exact ⟨by simp [diagPow2], by simp [diagPow2]⟩
  · constructor
    · intro h
      exact updatePair_hit p e _ 1 2 h
    · intro h
      rw [updatePair_miss p e _ 1 2 h,
          updatePair_other p e _ 0 2 1 2 (by omega),
          updatePair_other p e _ 0 2 2 1 (by omega),
          updatePair_other p e _ 0 1 1 2 (by omega),
          updatePair_other p e _ 0 1 2 1 (by omega)]
      exact ⟨by simp [diagPow2], by simp [diagPow2]⟩

/-- C5 witness: for a = b = 5.0 with uncertainty 0.01 and exact right
angles the (a,b) entry is 0.0001; for the differing pair (a,c) the
off-diagonal entry is zero. -/
theorem cell_vcv_symmetry_rule_witness :
    symmCond cellP_example cellE_example 0 1
      ∧ cell_vcv cellP_example cellE_example 0 1 = mkRat 1 10000
      ∧ ¬ symmCond cellP_example cellE_example 0 2
      ∧ cell_vcv cellP_example cellE_example 0 2 = 0 := by
  have h1 := cell_vcv_symmetry_rule cellP_example cellE_example 0 1
    (by omega) (by omega)
  have h2 := cell_vcv_symmetry_rule cellP_example cellE_example 0 2
    (by omega) (by omega)
  have hc : symmCond cellP_example cellE_example 0 1 := by decide
  have hn : ¬ symmCond cellP_example cellE_example 0 2 := by decide
  refine ⟨hc, ?_, hn, (h2.2 hn).1⟩
  rw [(h1.1 hc).1]
  decide

/-- C6 counterexample: with two *.hkl files in the data directory the
lookup takes the first match and BenchJob construction succeeds — no
index error is signalled for multiple matches. -/
theorem setup_multiple_matches_counterexample :
    2 ≤ (DataDir.hklFiles ⟨["a.hkl", "b.hkl"], ["m.ins"]⟩).length
      ∧ setup_workspace ⟨["a.hkl", "b.hkl"], ["m.ins"]⟩ none
          = .ok ["a.hkl", "m.ins"]
      ∧ BenchJob.construct ⟨["a.hkl", "b.hkl"], ["m.ins"]⟩ none "wp" 0 false
          none = .ok (BenchJob.init "wp" 0 false none) := by
  refine ⟨by decide, by decide, rfl⟩

/-- C6 amended: the file lookup signals an index error that aborts
BenchJob construction exactly when zero files match one of the
extensions; when at least one file matches each, the first match of each
is copied and construction proceeds — multiple matches do not signal an
error. -/
theorem setup_lookup_zero_matches (data : DataDir)
    (prior : Option (List String)) (base : String) (id : Nat) (u : Bool)
    (ps : Option KVs) :
    ((data.hklFiles = [] ∨ data.insFiles = []) ↔
        BenchJob.construct data prior base id u ps = .error .indexError)
      ∧ (∀ h ht i it, data.hklFiles = h :: ht → data.insFiles = i :: it →
          BenchJob.construct data prior base id u ps
            = .ok (BenchJob.init base id u ps)) := by
  rcases data with ⟨hl, il⟩
  cases prior <;> cases hl <;> cases il <;>
    simp [BenchJob.construct, setup_workspace, globFirst]

/-- C6 witness for the amended statement: zero matches abort, a single
match per extension succeeds. -/
theorem setup_lookup_zero_matches_witness :
    BenchJob.construct ⟨[], ["m.ins"]⟩ none "wp" 0 false none
        = .error .indexError
      ∧ BenchJob.construct ⟨["a.hkl"], ["m.ins"]⟩ none "wp" 1 false none
          = .ok (BenchJob.init "wp" 1 false none) :=
  ⟨(setup_lookup_zero_matches ⟨[], ["m.ins"]⟩ none "wp" 0 false none).1.mp
      (Or.inl rfl),
    (setup_lookup_zero_matches ⟨["a.hkl"], ["m.ins"]⟩ none "wp" 1 false
      none).2 "a.hkl" [] "m.ins" [] rfl rfl⟩

/-- C7: setup_workspace discards whatever the job directory contained and
returns exactly the two freshly copied input files, so a second call
yields the same contents as the first whatever happened in between. -/
theorem setup_workspace_idempotent (data : DataDir) (h : String)
    (ht : List String) (i : String) (it : List String)
    (hh : data.hklFiles = h :: ht) (hi : data.insFiles = i :: it) :
    (∀ prior, setup_workspace data prior = .ok [h, i])
      ∧ (∀ prior prior',
          setup_workspace data prior = setup_workspace data prior') := by
  constructor
  · intro prior
    cases prior <;> simp [setup_workspace, globFirst, hh, hi]
  · intro prior prior'
    cases prior <;> cases prior' <;> rfl

/-- C7 witness: a workspace full of stale files and a fresh one both end
up holding exactly the two copied inputs. -/
theorem setup_workspace_idempotent_witness :
    setup_workspace ⟨["a.hkl"], ["m.ins"]⟩ (some ["stale.txt", "done"])
        = .ok ["a.hkl", "m.ins"]
      ∧ setup_workspace ⟨["a.hkl"], ["m.ins"]⟩ (some ["a.hkl", "m.ins"])
          = setup_workspace ⟨["a.hkl"], ["m.ins"]⟩ none :=
  ⟨(setup_workspace_idempotent ⟨["a.hkl"], ["m.ins"]⟩ "a.hkl" [] "m.ins" []
      rfl rfl).1 _,
    (setup_workspace_idempotent ⟨["a.hkl"], ["m.ins"]⟩ "a.hkl" [] "m.ins" []
      rfl rfl).2 _ _⟩

/-- In full-batch mode no produced job carries an index the source
reports finished. -/
theorem init_sisy_jobs_go_unfinished (work_path : String) (opts : KVs)
    (u : Bool) (src : BenchSource) :
    ∀ (l : List KVs) (k : Nat) (j : BenchJob),
      j ∈ init_sisy_jobs_go work_path opts u src k l →
        src.finished j.id = false := by
  intro l
  induction l with
  | nil =>
      intro k j hj
      simp [init_sisy_jobs_go] at hj
  | cons c rest ih =>
      intro k j hj
      simp only [init_sisy_jobs_go] at hj
      by_cases hf : src.finished k = true
      · rw [if_pos hf] at hj
        exact ih (k + 1) j hj
      · rw [if_neg hf] at hj
        rcases List.mem_cons.mp hj with h1 | h2
        · have hid : j.id = k := by
            rw [h1]
            split <;> rfl
          rw [hid]
          simp [Bool.not_eq_true] at hf
          exact hf
        · exact ih (k + 1) j h2

/-- C8: for every index the benchmark source reports finished, neither
single-job mode nor full-batch mode of init_sisy_jobs constructs a
BenchJob with that index (so such a job is never run; the pre-check
precedes construction). -/
theorem init_sisy_jobs_skip_finished (work_path : String) (idx : Int)
    (opts : KVs) (u : Bool) (src : BenchSource) (i : Nat)
    (hfin : src.finished i = true) :
    ∀ j ∈ init_sisy_jobs work_path idx opts u src, j.id ≠ i := by
  intro j hj hne
  rw [init_sisy_jobs] at hj
  by_cases hidx : idx ≠ -1
  · rw [if_pos hidx] at hj
    by_cases hf : src.finished idx.toNat = true
    · rw [if_pos hf] at hj
      simp at hj
    · rw [if_neg hf] at hj
      have hj' : j ∈ (if dictHasKey (dictUpdate opts
            (src.jobs.getD idx.toNat [])) "IAM" = true
          then [BenchJob.init work_path idx.toNat false none]
          else [BenchJob.init work_path idx.toNat u
            (some (dictUpdate opts (src.jobs.getD idx.toNat [])))]) := hj
      have hid : j.id = idx.toNat := by
        split at hj' <;> simp at hj' <;> subst hj' <;> rfl
      apply hf
      rw [hid] at hne
      rw [hne]
      exact hfin
  · rw [if_neg hidx] at hj
    have hj' := init_sisy_jobs_go_unfinished work_path opts u src src.jobs 0
      j hj
    rw [hne, hfin] at hj'
    exact absurd hj' (by decide)

/-- C8 witness: with index 0 finished, the one job batch mode produces
(the job of index 1) does not carry the finished index. -/
theorem init_sisy_jobs_skip_finished_witness :
    srcExample.finished 0 = true
      ∧ (BenchJob.init "wp" 1 false (some [("basis_name", "cc")])).id ≠ 0 :=
  ⟨rfl, init_sisy_jobs_skip_finished "wp" (-1) [] false srcExample 0 rfl
    (BenchJob.init "wp" 1 false (some [("basis_name", "cc")])) (by decide)⟩

set_option maxRecDepth 8000 in
/-- C9: the results text consists of the fixed sections in order
NoSpherA2_Dict, Stats-GetHklStat, Cell-Stats, CIF-stats, refine_dict,
the R-factor/cycle/time line, bondlengths, bonderrors, weighting flag,
NPD count, closing separator; concretely, for a job with one bond O1-H1
of distance 0.98 and uncertainty 0.01 the text contains the bondlengths
entry O1-H1:0.98, before the bonderrors entry O1-H1:0.01,. -/
theorem results_text_order :
    (∀ r : ResultsData,
      results_text r
        = "NoSpherA2_Dict:\n"
          ++ (if r.use_nos2 then kvJoin r.nos2_params else "")
          ++ "\nStats-GetHklStat:\n" ++ kvJoin r.hkl_stats
          ++ "\nCell-Stats:\n" ++ kvJoin r.cell_stats
          ++ "\nCIF-stats:\n" ++ kvJoin r.cif_stats
          ++ "\nrefine_dict:\n"
          ++ kvJoin (refineKeys.map (fun k => (k, r.refine_val k)))
          ++ ("R1_all:" ++ r.R1_all ++ ",R1_gt:" ++ r.R1_gt ++ ",wR2:"
              ++ r.wR2 ++ ",cycles:" ++ r.cycles ++ ",time:" ++ r.time ++ ",")
          ++ "\nbondlengths:\n" ++ kvJoin r.dist_stats
          ++ "\nbonderrors:\n" ++ kvJoinWith r.dist_stats r.dist_errs
          ++ "\nWeight:" ++ r.weight
          ++ "\nNr. NPD:" ++ r.npd
          ++ "\n+++++++++++++++++++\n")
      ∧ occursBefore (results_text resultsDataExample)
          "bondlengths:\nO1-H1:0.98," "bonderrors:\nO1-H1:0.01," := by
  refine ⟨fun r => rfl, ?_⟩
  refine ⟨"NoSpherA2_Dict:\n\nStats-GetHklStat:\nTotalReflections:100,\nCell-Stats:\na:5.0,\nCIF-stats:\nR1:0.02,\nrefine_dict:\nmax_peak:0,max_hole:0,res_rms:0,goof:0,max_shift_over_esd:0,hooft_str:0,R1_all:0.02,R1_gt:0.02,wR2:0.05,cycles:0,time:0.0,\n",
    "\n", "\nWeight:True\nNr. NPD:0\n+++++++++++++++++++\n", ?_⟩
  decide

end Sisyphos
